import Mathlib

/-!
# Verification of the weewx image generator plot-data preparation pipeline

Shallow embedding of `src/bin/weewx/imagegenerator.py`: the skip decision
(`skipThisPlot`), the synthesized-points generator (`generatePoints`), the
time-window derivation with the explicit tick override, and the per-line
processing pipeline of `ImageGenerator.genImages` (aggregation resolution,
the debug-mode assertion on the fetched `ValueTuple`s, the
aggregate-midpoint shift, unit conversion, and the plot-type specific
derived fields `bar_width` and `gap_fraction`).

Modelling conventions:
* Python integers are `Int`; timestamps and intervals are `Int` seconds.
* Python floats are modelled by `ℚ` (exact arithmetic; the claims under
  study are about exact quantities such as `aggregate_interval / 2`).
* Python `None` is `Option.none`; a raised exception that propagates is
  `Except.error` / `Option.none`, as indicated at each definition.
* External collaborators (the local-timezone midnight computation of
  `datetime`, the `weeplot.utilities.scaletime` window derivation, the unit
  `Converter`, the archive data source, and the Python `eval` used by the
  function mode) are parameters of the definitions that call them.
* Logging (`syslog`) is a side effect with no bearing on any data flow and
  is elided.
-/

namespace Weewx

/-- Embedding of `skipThisPlot(time_ts, aggregate_interval, img_file)`
(`imagegenerator.py`, lines 368-385).

* `secondsFromMidnight` models the external local-timezone computation
  `time_dt - time_dt.replace(hour=0, minute=0, second=0, microsecond=0)`
  followed by `.seconds`: it maps `time_ts` to the integral seconds offset
  from local midnight.
* `file_exists` models `os.path.exists(img_file)`, `mtime` models
  `os.stat(img_file).st_mtime`.
* The result is `none` when the Python code would raise (division by a zero
  `aggregate_interval` in the final modulo), otherwise `some b` where `b`
  is the returned boolean.  Python `%` on integers is floor-based, which is
  `Int.fmod`. -/
def skipThisPlot (secondsFromMidnight : Int → Int) (time_ts : Int)
    (aggregate_interval : Option Int) (file_exists : Bool) (mtime : Int) :
    Option Bool :=
  match aggregate_interval with
  | none => some false
  | some ai =>
    if ¬ file_exists then some false
    else if ai ≤ time_ts - mtime then some false
    else if ai = 0 then none
    else some (decide (1 < |Int.fmod (secondsFromMidnight time_ts) ai|))

/-- Embedding of Python 2 `range(xmin, xmax, xinc)` over integers.
Returns `none` when `xinc = 0` (Python raises `ValueError`); for a nonzero
step it returns the arithmetic progression `xmin, xmin + xinc, ...` that
stays strictly before `xmax` (strictly after, for a negative step). -/
def pyRange (xmin xmax xinc : Int) : Option (List Int) :=
  if xinc = 0 then none
  else
    let count : Nat :=
      if 0 < xinc then ((xmax - xmin + xinc - 1) / xinc).toNat
      else ((xmin - xmax + (-xinc) - 1) / (-xinc)).toNat
    some ((List.range count).map (fun k => xmin + k * xinc))

/-- The accumulation loop of `generatePoints` (`imagegenerator.py`, lines
394-401): for each `x` of the range, evaluate the expression; `none` models
any exception escaping `eval`/`float` (caught by the surrounding `try`),
which discards all accumulated samples. -/
def evalLoop (f : Int → Option ℚ) : List Int → Option (List Int × List Int × List ℚ)
  | [] => some ([], [], [])
  | x :: rest =>
    match f x with
    | none => none
    | some y =>
      (evalLoop f rest).map (fun v => (x :: v.1, x :: v.2.1, y :: v.2.2))

/-- Embedding of `generatePoints(func_type, func_def, xmin, xmax, xinc)`
(`imagegenerator.py`, lines 387-413).

`f` models the external evaluation `float(eval(func_def.replace('x', ...)))`
at one point: `none` is an exception.  Any exception inside the `try`
(including `range` itself rejecting a zero step) replaces all three vectors
with the single zero sample.  The `ValueTuple` unit tagging through the
external `weewx.units.getStandardUnitType` carries no numeric content and
is elided: the result is the triple `(start_vec, stop_vec, data_vec)`. -/
def generatePoints (f : Int → Option ℚ) (xmin xmax xinc : Int) :
    List Int × List Int × List ℚ :=
  match pyRange xmin xmax xinc with
  | none => ([0], [0], [0])
  | some xs =>
    match evalLoop f xs with
    | none => ([0], [0], [0])
    | some v => v

/-- Embedding of the time-window derivation (`imagegenerator.py`, lines
115-121).  `scaletime` models the external call
`weeplot.utilities.scaletime(plotgen_ts - time_length, plotgen_ts)`
returning `(minstamp, maxstamp, timeinc)`; when the user option
`x_interval` is present its value replaces only the tick increment. -/
def planWindow (scaletime : Int → Int → Int × Int × Int) (plotgen_ts : Int)
    (time_length : Int) (x_interval : Option Int) : Int × Int × Int :=
  let w := scaletime (plotgen_ts - time_length) plotgen_ts
  match x_interval with
  | none => w
  | some u => (w.1, w.2.1, u)

/-- The options read from one line's accumulated configuration
(`line_options` in `ImageGenerator.genImages`), restricted to the fields
that feed the data-flow of the pipeline.  `none` models an absent key.
The pure styling fields (colors, flags, annotations, ...) are resolved
independently of the data flow and are elided.  `line_gap_fraction` carries
the already-`to_float`-converted value. -/
structure LineOptions where
  section_name : String
  data_type : Option String
  aggregate_type : Option String
  aggregate_interval : Option Int
  function_type : Option String
  function_definition : Option String
  plot_type : Option String
  line_gap_fraction : Option ℚ
  deriving DecidableEq, Repr

/-- Embedding of `weewx.units.ValueTuple`: a 3-tuple
`(value, unit_type, unit_group)` whose first component is the list of
samples.  The generator reads its components positionally as `[0]`, `[1]`,
`[2]` (lines 193-196) and as `.value` (line 237). -/
structure ValueTupleQ where
  value : List ℚ
  unit_type : String
  unit_group : String
  deriving DecidableEq, Repr

/-- Python `len` of a `ValueTuple`.  `ValueTuple` subclasses a 3-element
tuple, so `len` returns 3 regardless of how many samples the `value` list
holds; it does not measure the sample vector. -/
def ValueTupleQ.pyLen (_ : ValueTupleQ) : Nat := 3

/-- The three `ValueTuple`s returned by the line's data source (the
external archive `getSqlVectors`, or `generatePoints` wrapped in
`ValueTuple`s for function mode): `start_vec_t`, `stop_vec_t`,
`data_vec_t`. -/
structure Fetched where
  start : ValueTupleQ
  stop : ValueTupleQ
  data : ValueTupleQ
  deriving DecidableEq, Repr

/-- The data-flow portion of the `PlotLine` handed to the renderer
(`plot.addLine(...)`): converted vectors, the plot type, the derived
`bar_width` vector (`interval_vec`) and `gap_fraction`. -/
structure LineSpec where
  plot_type : String
  start : List ℚ
  stop : List ℚ
  data : List ℚ
  bar_width : Option (List ℚ)
  gap_fraction : Option ℚ
  deriving DecidableEq, Repr

/-- Embedding of the aggregation lookup (`imagegenerator.py`, lines
148-160).  Outer `none` models the `KeyError` branch (aggregate type given
but `aggregate_interval` missing) whose handler logs and `continue`s,
skipping the line.  `some none` means no aggregation; `some (some (t, i))`
is a resolved aggregation type and interval. -/
def resolveAggregation (o : LineOptions) : Option (Option (String × Int)) :=
  match o.aggregate_type with
  | none => some none
  | some t =>
    if t = "" ∨ t = "None" ∨ t = "none" then some none
    else
      match o.aggregate_interval with
      | none => none
      | some i => some (some (t, i))

/-- Python's `str.lower()` on the ASCII strings compared by the pipeline:
character-wise lowercasing. -/
def lowerAscii (s : String) : String :=
  String.mk (s.data.map Char.toLower)

/-- Embedding of the midpoint correction (`imagegenerator.py`, lines
191-196): when aggregation is active with type `avg`, `max` or `min`
(case-insensitive) and the plot type is not `bar`, shift every start and
stop sample back by half the aggregate interval.  Python's truthiness test
`aggregate_type and ...` also rejects the empty string, which the
membership test rejects as well. -/
def midpointShift (agg : Option (String × ℚ)) (plot_type : String)
    (start stop : List ℚ) : List ℚ × List ℚ :=
  match agg with
  | none => (start, stop)
  | some p =>
    if (lowerAscii p.1 = "avg" ∨ lowerAscii p.1 = "max" ∨ lowerAscii p.1 = "min")
        ∧ plot_type ≠ "bar" then
      (start.map (fun x => x - p.2 / 2), stop.map (fun x => x - p.2 / 2))
    else (start, stop)

/-- Embedding of the bar-width derivation (`imagegenerator.py`, line 237):
`[x[1] - x[0] for x in zip(new_start_vec_t.value, new_stop_vec_t.value)]`. -/
def intervalVec (start stop : List ℚ) : List ℚ :=
  List.zipWith (fun a b => b - a) start stop

/-- Embedding of the `gap_fraction` resolution (`imagegenerator.py`, lines
226-243): it stays unset for `vector` and `bar` plots, is read from
`line_gap_fraction` for `line` plots, and a value outside the open
interval `(0, 1)` is logged and reset to `None`. -/
def resolveGapFraction (plot_type : String) (cfg : Option ℚ) : Option ℚ :=
  if plot_type = "vector" then none
  else
    let g := if plot_type = "bar" then none
      else if plot_type = "line" then cfg
      else none
    match g with
    | none => none
    | some v => if 0 < v ∧ v < 1 then some v else none

/-- Embedding of the body of the per-line loop of `ImageGenerator.genImages`
(`imagegenerator.py`, lines 139-352), restricted to the data flow.

* `debug` is the global `weewx.debug` flag; `conv` models the external unit
  `Converter.convert` on a `ValueTuple`; `src` is the data source's
  response for this line (archive or function evaluator).
* Line 186, `assert(len(start_vec_t) == len(stop_vec_t))`, compares the
  Python `len` of the two `ValueTuple` containers themselves (both 3, see
  `ValueTupleQ.pyLen`), not the lengths of their sample vectors; the
  `Except.error ()` branch models the `AssertionError` propagating out of
  the generator, and is consequently unreachable.
* `Except.ok none` models `continue` (the line is skipped);
  `Except.ok (some spec)` is the line added to the plot. -/
def processLine (debug : Bool) (conv : ValueTupleQ → ValueTupleQ)
    (o : LineOptions) (src : Fetched) : Except Unit (Option LineSpec) :=
  let var_type := o.data_type.getD o.section_name
  match resolveAggregation o with
  | none => Except.ok none
  | some agg =>
    if var_type = "function"
        ∧ (o.function_type = none ∨ o.function_definition = none) then
      Except.ok none
    else if debug ∧ src.start.pyLen ≠ src.stop.pyLen then
      Except.error ()
    else
      let plot_type := o.plot_type.getD "line"
      let aggQ : Option (String × ℚ) := agg.map (fun p => (p.1, (p.2 : ℚ)))
      let shifted := midpointShift aggQ plot_type src.start.value src.stop.value
      let start_vec_t : ValueTupleQ :=
        ⟨shifted.1, src.start.unit_type, src.start.unit_group⟩
      let stop_vec_t : ValueTupleQ :=
        ⟨shifted.2, src.stop.unit_type, src.stop.unit_group⟩
      let new_start := conv start_vec_t
      let new_stop := conv stop_vec_t
      let new_data := conv src.data
      let bar_width : Option (List ℚ) :=
        if plot_type = "vector" then none
        else if plot_type = "bar" then
          some (intervalVec new_start.value new_stop.value)
        else none
      Except.ok (some
        { plot_type := plot_type
          start := new_start.value
          stop := new_stop.value
          data := new_data.value
          bar_width := bar_width
          gap_fraction := resolveGapFraction plot_type o.line_gap_fraction })

/-- The per-line loop over one plot's lines: skipped lines contribute
nothing, a propagating assertion aborts the traversal. -/
def processLines (debug : Bool) (conv : ValueTupleQ → ValueTupleQ) :
    List (LineOptions × Fetched) → Except Unit (List LineSpec)
  | [] => Except.ok []
  | (o, src) :: rest =>
    match processLine debug conv o src with
    | Except.error e => Except.error e
    | Except.ok none => processLines debug conv rest
    | Except.ok (some spec) =>
      (processLines debug conv rest).map (fun specs => spec :: specs)

/-- The plot loop of `genImages`: plots are processed in order; an
uncaught exception (the debug assertion) propagates out of the whole
generation pass. -/
def processPlots (debug : Bool) (conv : ValueTupleQ → ValueTupleQ) :
    List (List (LineOptions × Fetched)) → Except Unit (List (List LineSpec))
  | [] => Except.ok []
  | p :: rest =>
    match processLines debug conv p with
    | Except.error e => Except.error e
    | Except.ok specs =>
      (processPlots debug conv rest).map (fun out => specs :: out)

/-! ## Theorems -/

/-- Claim C8: `skipThisPlot` returns `false` whenever the aggregate interval
is unset, or the artifact file does not exist, or
`time_ts - mtime ≥ aggregate_interval`. -/
theorem skipThisPlot_returns_false_cases (f : Int → Int) (time_ts : Int)
    (ai? : Option Int) (file_exists : Bool) (mtime : Int) :
    (ai? = none → skipThisPlot f time_ts ai? file_exists mtime = some false) ∧
    (file_exists = false →
      skipThisPlot f time_ts ai? file_exists mtime = some false) ∧
    (∀ ai : Int, ai? = some ai → ai ≤ time_ts - mtime →
      skipThisPlot f time_ts ai? file_exists mtime = some false) := by
  refine ⟨?_, ?_, ?_⟩
  · rintro rfl
    rfl
  · rintro rfl
    cases ai? with
    | none => rfl
    | some ai => simp [skipThisPlot]
  · rintro ai rfl hold
    simp [skipThisPlot, if_pos hold]

/-- Witness for C8 at concrete inputs. -/
theorem skipThisPlot_returns_false_cases_witness :
    ((some 300 : Option Int) = some 300) ∧ (300 : Int) ≤ 1000 - 400 ∧
    skipThisPlot (fun _ => 0) 1000 (some 300) true 400 = some false := by
  refine ⟨rfl, by decide, ?_⟩
  exact (skipThisPlot_returns_false_cases (fun _ => 0) 1000 (some 300) true
    400).2.2 300 rfl (by decide)

/-- Counterexample to claim C1 as stated.  The claim asserts that on an
aggregation boundary (offset from local midnight ≡ 0 mod interval) with a
fresh, existing artifact the skip decision returns `true`, and at offset
`interval / 2` it returns `false`.  The code does the opposite: it returns
`abs(offset % interval) > 1`, regenerating (returning `false`) on the
boundary and skipping (returning `true`) at the half-interval offset.
Concrete input: interval 300 s, artifact 100 s old (fresh), offset 3600
(a boundary: 3600 mod 300 = 0) respectively 3750 (= boundary + 150 =
interval / 2 away). -/
theorem skipThisPlot_claimC1_false :
    skipThisPlot (fun _ => 3600) 1000000 (some 300) true 999900 = some false ∧
    skipThisPlot (fun _ => 3750) 1000000 (some 300) true 999900 = some true := by
  constructor <;> rfl

/-- Claim C1 (amended): with the aggregate interval positive, the artifact
existing and fresh (`time_ts - mtime < aggregate_interval`), the skip
decision returns `false` (regenerate) when the offset from local midnight
is on an aggregation boundary, and returns `true` (skip) when the offset
modulo the interval is the half interval (provided that half exceeds one
second). -/
theorem skipThisPlot_boundary_behavior (f : Int → Int) (time_ts ai mtime : Int)
    (hpos : 0 < ai) (hfresh : time_ts - mtime < ai) :
    (Int.fmod (f time_ts) ai = 0 →
      skipThisPlot f time_ts (some ai) true mtime = some false) ∧
    (∀ k : Int, ai = 2 * k → 1 < k → Int.fmod (f time_ts) ai = k →
      skipThisPlot f time_ts (some ai) true mtime = some true) := by
  have hne : ai ≠ 0 := ne_of_gt hpos
  have hnotold : ¬ ai ≤ time_ts - mtime := not_le.mpr hfresh
  constructor
  · intro hmod
    simp [skipThisPlot, hnotold, hne, hmod]
  · intro k hk hk1 hmod
    have habs : |Int.fmod (f time_ts) ai| = k := by
      rw [hmod]
      exact abs_of_pos (lt_trans one_pos hk1)
    simp [skipThisPlot, hnotold, hne, habs, hk1]

/-- Witness for the amended claim C1 at concrete inputs (interval 300,
offset 3600 on a boundary, offset 3750 at the half interval 150). -/
theorem skipThisPlot_boundary_behavior_witness :
    (0 : Int) < 300 ∧ (1000000 : Int) - 999900 < 300 ∧
    skipThisPlot (fun _ => 3600) 1000000 (some 300) true 999900 = some false ∧
    skipThisPlot (fun _ => 3750) 1000000 (some 300) true 999900 = some true := by
  refine ⟨by decide, by decide, ?_, ?_⟩
  · exact (skipThisPlot_boundary_behavior (fun _ => 3600) 1000000 300 999900
      (by decide) (by decide)).1 (by decide)
  · exact (skipThisPlot_boundary_behavior (fun _ => 3750) 1000000 300 999900
      (by decide) (by decide)).2 150 (by decide) (by decide) (by decide)

theorem evalLoop_eq_none_of_mem (f : Int → Option ℚ) (xs : List Int) (x : Int)
    (hmem : x ∈ xs) (hfail : f x = none) : evalLoop f xs = none := by
  induction xs with
  | nil => cases hmem
  | cons a rest ih =>
    rcases List.mem_cons.mp hmem with h | h
    · subst h
      simp [evalLoop, hfail]
    · cases hfa : f a with
      | none => simp [evalLoop, hfa]
      | some y => simp [evalLoop, hfa, ih h]

/-- Claim C5: whenever evaluation of the function fails for some sample in
the generated range, `generatePoints` degrades to the three one-element
zero vectors `([0], [0], [0])`; the accumulated partial samples are
discarded and no exception escapes. -/
theorem generatePoints_failure_fallback (f : Int → Option ℚ)
    (xmin xmax xinc : Int) (xs : List Int) (x : Int)
    (hrange : pyRange xmin xmax xinc = some xs) (hmem : x ∈ xs)
    (hfail : f x = none) :
    generatePoints f xmin xmax xinc = ([0], [0], [0]) := by
  simp [generatePoints, hrange, evalLoop_eq_none_of_mem f xs x hmem hfail]

/-- Witness for C5: the range `0, 10, ..., 40` with an evaluator failing at
`x = 20` yields the zero-sample fallback. -/
theorem generatePoints_failure_fallback_witness :
    pyRange 0 50 10 = some [0, 10, 20, 30, 40] ∧ (20 : Int) ∈ [0, 10, 20, 30, 40] ∧
    (fun x : Int => if x = 20 then (none : Option ℚ) else some (x : ℚ)) 20 = none ∧
    generatePoints
      (fun x : Int => if x = 20 then (none : Option ℚ) else some (x : ℚ))
      0 50 10 = ([0], [0], [0]) := by
  refine ⟨by decide, by decide, by simp, ?_⟩
  exact generatePoints_failure_fallback _ 0 50 10 [0, 10, 20, 30, 40] 20
    (by decide) (by decide) (by simp)

theorem evalLoop_shape (f : Int → Option ℚ) (xs : List Int)
    (v : List Int × List Int × List ℚ) (h : evalLoop f xs = some v) :
    v.1 = v.2.1 ∧ v.1.length = v.2.2.length := by
  induction xs generalizing v with
  | nil =>
    simp only [evalLoop, Option.some.injEq] at h
    subst h
    exact ⟨rfl, rfl⟩
  | cons a rest ih =>
    cases hfa : f a with
    | none => simp [evalLoop, hfa] at h
    | some y =>
      simp only [evalLoop, hfa, Option.map_eq_some'] at h
      obtain ⟨w, hw, rfl⟩ := h
      obtain ⟨h1, h2⟩ := ih w hw
      refine ⟨by simpa using h1, by simpa using h2⟩

/-- Claim C10: for every evaluator and range, `generatePoints` returns
start and stop vectors that are element-wise equal, with the same length as
the data vector — on the successful path and on the failure fallback. -/
theorem generatePoints_aligned (f : Int → Option ℚ) (xmin xmax xinc : Int) :
    (generatePoints f xmin xmax xinc).1 = (generatePoints f xmin xmax xinc).2.1 ∧
    (generatePoints f xmin xmax xinc).1.length =
      (generatePoints f xmin xmax xinc).2.2.length := by
  cases hr : pyRange xmin xmax xinc with
  | none => simp [generatePoints, hr]
  | some xs =>
    cases hl : evalLoop f xs with
    | none => simp [generatePoints, hr, hl]
    | some v =>
      have h := evalLoop_shape f xs v hl
      simpa [generatePoints, hr, hl] using h

/-- Claim C9: an explicit `x_interval` replaces the derived tick increment
while the derived `minstamp` and `maxstamp` are unchanged. -/
theorem planWindow_override (scaletime : Int → Int → Int × Int × Int)
    (plotgen_ts time_length u : Int) :
    planWindow scaletime plotgen_ts time_length (some u) =
      ((planWindow scaletime plotgen_ts time_length none).1,
       (planWindow scaletime plotgen_ts time_length none).2.1, u) := rfl

/-- Claim C3: when the aggregation type is `avg`, `max` or `min`
(case-insensitive) and the plot type is not `bar`, every start and stop
sample is shifted by exactly `-aggregate_interval / 2`; when the plot type
is `bar`, or the aggregation type is not one of those three (including no
aggregation at all), no sample is shifted. -/
theorem midpointShift_spec (t : String) (interval : ℚ) (pt : String)
    (start stop : List ℚ) :
    ((lowerAscii t = "avg" ∨ lowerAscii t = "max" ∨ lowerAscii t = "min")
        ∧ pt ≠ "bar" →
      midpointShift (some (t, interval)) pt start stop =
        (start.map (fun x => x - interval / 2),
         stop.map (fun x => x - interval / 2))) ∧
    (pt = "bar"
        ∨ ¬(lowerAscii t = "avg" ∨ lowerAscii t = "max" ∨ lowerAscii t = "min") →
      midpointShift (some (t, interval)) pt start stop = (start, stop)) ∧
    midpointShift none pt start stop = (start, stop) := by
  refine ⟨?_, ?_, rfl⟩
  · intro h
    simp only [midpointShift]
    rw [if_pos h]
  · intro h
    simp only [midpointShift]
    rw [if_neg (by tauto)]

/-- Witness for C3: aggregation `avg` with interval 300 shifts `line`-plot
samples by 150 and leaves `bar`-plot samples unchanged. -/
theorem midpointShift_spec_witness :
    midpointShift (some ("avg", (300 : ℚ))) "line" [1000] [1300] =
      ([850], [1150]) ∧
    midpointShift (some ("avg", (300 : ℚ))) "bar" [1000] [1300] =
      ([1000], [1300]) := by
  constructor
  · rw [(midpointShift_spec "avg" 300 "line" [1000] [1300]).1
      ⟨Or.inl (by decide), by decide⟩]
    norm_num
  · exact (midpointShift_spec "avg" 300 "bar" [1000] [1300]).2.1 (Or.inl rfl)

/-- Claim C4: the derived bar-width vector satisfies
`bar_width[i] = stop[i] - start[i]` for every index, over the
post-conversion vectors it is built from. -/
theorem intervalVec_spec (s t : List ℚ) (i : Nat)
    (hi : i < (intervalVec s t).length) (hs : i < s.length)
    (ht : i < t.length) :
    (intervalVec s t).get ⟨i, hi⟩ = t.get ⟨i, ht⟩ - s.get ⟨i, hs⟩ := by
  simp [intervalVec, List.get_eq_getElem, List.getElem_zipWith]

/-- Witness for C4 at concrete vectors. -/
theorem intervalVec_spec_witness :
    0 < (intervalVec [(1 : ℚ), 2] [4, 6]).length ∧
    0 < ([(1 : ℚ), 2] : List ℚ).length ∧ 0 < ([(4 : ℚ), 6] : List ℚ).length ∧
    (intervalVec [(1 : ℚ), 2] [4, 6]).get ⟨0, by decide⟩ =
      ([(4 : ℚ), 6] : List ℚ).get ⟨0, by decide⟩ -
        ([(1 : ℚ), 2] : List ℚ).get ⟨0, by decide⟩ :=
  ⟨by decide, by decide, by decide,
    intervalVec_spec [(1 : ℚ), 2] [4, 6] 0 (by decide) (by decide) (by decide)⟩

/-- Claim C6: for a `line` plot, a configured gap fraction outside the open
interval `(0, 1)` is rejected and the line proceeds with no gap fraction
set (not clamped); a value strictly inside `(0, 1)` is kept unchanged. -/
theorem resolveGapFraction_spec (v : ℚ) :
    (¬(0 < v ∧ v < 1) → resolveGapFraction "line" (some v) = none) ∧
    (0 < v ∧ v < 1 → resolveGapFraction "line" (some v) = some v) := by
  constructor
  · intro h
    simp [resolveGapFraction, h]
  · intro h
    simp [resolveGapFraction, h]

/-- Witness for C6: gap fraction `3/2` is rejected, `1/2` is kept. -/
theorem resolveGapFraction_spec_witness :
    ¬((0 : ℚ) < 3 / 2 ∧ (3 / 2 : ℚ) < 1) ∧
    resolveGapFraction "line" (some (3 / 2 : ℚ)) = none ∧
    ((0 : ℚ) < 1 / 2 ∧ (1 / 2 : ℚ) < 1) ∧
    resolveGapFraction "line" (some (1 / 2 : ℚ)) = some (1 / 2) :=
  ⟨by norm_num, (resolveGapFraction_spec (3 / 2)).1 (by norm_num),
   by norm_num, (resolveGapFraction_spec (1 / 2)).2 (by norm_num)⟩

/-- Counterexample to claim C2 as stated.  The claim asserts that a
start/stop sample-vector length mismatch from the data source is surfaced
as a fatal error in every execution.  The check in the code is
`if weewx.debug: assert(len(start_vec_t) == len(stop_vec_t))`, and `len`
of a `ValueTuple` is its tuple length 3, not the number of samples: a line
whose fetched start vector has 1 sample and stop vector 0 samples raises
nothing — with the debug flag off and with it on alike — and processing
continues normally. -/
theorem processLine_claimC2_false :
    (⟨⟨[0], "unix_epoch", "group_time"⟩, ⟨[], "unix_epoch", "group_time"⟩,
        ⟨[1], "degree_C", "group_temperature"⟩⟩ : Fetched).start.value.length ≠
      (⟨⟨[0], "unix_epoch", "group_time"⟩, ⟨[], "unix_epoch", "group_time"⟩,
        ⟨[1], "degree_C", "group_temperature"⟩⟩ : Fetched).stop.value.length ∧
    processLine false id
      ⟨"outTemp", none, none, none, none, none, none, none⟩
      ⟨⟨[0], "unix_epoch", "group_time"⟩, ⟨[], "unix_epoch", "group_time"⟩,
        ⟨[1], "degree_C", "group_temperature"⟩⟩ ≠ Except.error () ∧
    processLine true id
      ⟨"outTemp", none, none, none, none, none, none, none⟩
      ⟨⟨[0], "unix_epoch", "group_time"⟩, ⟨[], "unix_epoch", "group_time"⟩,
        ⟨[1], "degree_C", "group_temperature"⟩⟩ ≠ Except.error () := by
  refine ⟨by decide, ?_, ?_⟩
  · have h : processLine false id
        ⟨"outTemp", none, none, none, none, none, none, none⟩
        ⟨⟨[0], "unix_epoch", "group_time"⟩, ⟨[], "unix_epoch", "group_time"⟩,
          ⟨[1], "degree_C", "group_temperature"⟩⟩ =
        Except.ok (some ⟨"line", [0], [], [1], none, none⟩) := rfl
    rw [h]
    simp
  · have h : processLine true id
        ⟨"outTemp", none, none, none, none, none, none, none⟩
        ⟨⟨[0], "unix_epoch", "group_time"⟩, ⟨[], "unix_epoch", "group_time"⟩,
          ⟨[1], "degree_C", "group_temperature"⟩⟩ =
        Except.ok (some ⟨"line", [0], [], [1], none, none⟩) := rfl
    rw [h]
    simp

/-- Claim C2 (amended): a start/stop sample-vector length mismatch from the
data source is never surfaced, in any execution: the debug-mode assertion
compares the Python `len` of the two `ValueTuple` containers, which is 3
for both regardless of their sample counts, so even with the debug flag
enabled no error is raised and the line is processed normally. -/
theorem processLine_mismatch_ignored (debug : Bool)
    (conv : ValueTupleQ → ValueTupleQ) (o : LineOptions) (src : Fetched)
    (hlen : src.start.value.length ≠ src.stop.value.length) :
    processLine debug conv o src ≠ Except.error () := by
  cases hagg : resolveAggregation o with
  | none => simp [processLine, hagg]
  | some agg =>
    by_cases hfun : o.data_type.getD o.section_name = "function"
        ∧ (o.function_type = none ∨ o.function_definition = none)
    · simp [processLine, hagg, hfun]
    · simp [processLine, hagg, hfun, ValueTupleQ.pyLen]

/-- Witness for the amended claim C2: with debug enabled and a 1-sample
start vector against a 0-sample stop vector, no error is raised. -/
theorem processLine_mismatch_ignored_witness :
    (⟨⟨[0], "unix_epoch", "group_time"⟩, ⟨[], "unix_epoch", "group_time"⟩,
        ⟨[1], "degree_C", "group_temperature"⟩⟩ : Fetched).start.value.length ≠
      (⟨⟨[0], "unix_epoch", "group_time"⟩, ⟨[], "unix_epoch", "group_time"⟩,
        ⟨[1], "degree_C", "group_temperature"⟩⟩ : Fetched).stop.value.length ∧
    processLine true id ⟨"outTemp", none, none, none, none, none, none, none⟩
      ⟨⟨[0], "unix_epoch", "group_time"⟩, ⟨[], "unix_epoch", "group_time"⟩,
        ⟨[1], "degree_C", "group_temperature"⟩⟩ ≠ Except.error () :=
  ⟨by decide,
    processLine_mismatch_ignored true id
      ⟨"outTemp", none, none, none, none, none, none, none⟩
      ⟨⟨[0], "unix_epoch", "group_time"⟩, ⟨[], "unix_epoch", "group_time"⟩,
        ⟨[1], "degree_C", "group_temperature"⟩⟩ (by decide)⟩

theorem processLine_skip_of_missing_interval (debug : Bool)
    (conv : ValueTupleQ → ValueTupleQ) (o : LineOptions) (src : Fetched)
    (t : String)
    (hty : o.aggregate_type = some t) (h1 : t ≠ "") (h2 : t ≠ "None")
    (h3 : t ≠ "none") (hint : o.aggregate_interval = none) :
    processLine debug conv o src = Except.ok none := by
  have hres : resolveAggregation o = none := by
    simp [resolveAggregation, hty, h1, h2, h3, hint]
  simp [processLine, hres]

theorem processLines_skip_of_missing_interval (debug : Bool)
    (conv : ValueTupleQ → ValueTupleQ) (l₁ l₂ : List (LineOptions × Fetched))
    (o : LineOptions) (src : Fetched) (t : String)
    (hty : o.aggregate_type = some t) (h1 : t ≠ "") (h2 : t ≠ "None")
    (h3 : t ≠ "none") (hint : o.aggregate_interval = none) :
    processLines debug conv (l₁ ++ (o, src) :: l₂) =
      processLines debug conv (l₁ ++ l₂) := by
  induction l₁ with
  | nil =>
    simp [processLines,
      processLine_skip_of_missing_interval debug conv o src t hty h1 h2 h3 hint]
  | cons a rest ih =>
    obtain ⟨ao, asrc⟩ := a
    cases hpl : processLine debug conv ao asrc with
    | error e => simp [processLines, hpl]
    | ok r =>
      cases r with
      | none => simp [processLines, hpl, ih]
      | some spec => simp [processLines, hpl, ih]

/-- Claim C7: a line that requests an aggregation type without an
aggregate interval is skipped, and only that line: the remaining lines of
the plot and the remaining plots produce exactly the output they would
produce without the offending line. -/
theorem processPlots_skip_bad_line (debug : Bool)
    (conv : ValueTupleQ → ValueTupleQ)
    (p₁ p₂ : List (List (LineOptions × Fetched)))
    (l₁ l₂ : List (LineOptions × Fetched)) (o : LineOptions) (src : Fetched)
    (t : String) (hty : o.aggregate_type = some t) (h1 : t ≠ "")
    (h2 : t ≠ "None") (h3 : t ≠ "none")
    (hint : o.aggregate_interval = none) :
    processPlots debug conv (p₁ ++ (l₁ ++ (o, src) :: l₂) :: p₂) =
      processPlots debug conv (p₁ ++ (l₁ ++ l₂) :: p₂) := by
  have hlines := processLines_skip_of_missing_interval debug conv l₁ l₂ o src
    t hty h1 h2 h3 hint
  induction p₁ with
  | nil => simp only [List.nil_append, processPlots, hlines]
  | cons q rest ih =>
    cases hq : processLines debug conv q with
    | error e => simp [processPlots, hq]
    | ok specs => simp [processPlots, hq, ih]

/-- Witness for C7: a single plot containing one line that asks for `sum`
aggregation without an interval generates the same output as the plot with
that line removed. -/
theorem processPlots_skip_bad_line_witness :
    (⟨"rain", none, some "sum", none, none, none, none, none⟩ :
      LineOptions).aggregate_type = some "sum" ∧
    (⟨"rain", none, some "sum", none, none, none, none, none⟩ :
      LineOptions).aggregate_interval = none ∧
    processPlots false id
      [[(⟨"rain", none, some "sum", none, none, none, none, none⟩,
         ⟨⟨[], "", ""⟩, ⟨[], "", ""⟩, ⟨[], "", ""⟩⟩)]] =
      processPlots false id [([] : List (LineOptions × Fetched))] :=
  ⟨rfl, rfl,
    processPlots_skip_bad_line false id [] [] [] []
      ⟨"rain", none, some "sum", none, none, none, none, none⟩
      ⟨⟨[], "", ""⟩, ⟨[], "", ""⟩, ⟨[], "", ""⟩⟩
      "sum" rfl (by decide) (by decide) (by decide) rfl⟩

end Weewx
